import Mathlib

/-
Verification of the daily-poetry widget plugin (src/main.py) against its
natural-language specification.

The embedding below translates the plugin's two logical pieces:

* PoetryFetchThread.run  -- the fetch-with-retry worker loop;
* Plugin                 -- the controller: auto_scroll tick, handle_success,
                            handle_failure, update_poetry, update_widget_content,
                            and the singleShot retry scheduling.

Network and GUI effects are modelled as explicit event traces: each request,
sleep, signal emission, UI update, log call and timer scheduling becomes an
element of a trace list, so that the temporal claims of the specification can
be stated as facts about traces.
-/

/-- A JSON object with string fields, as an association list.  This models the
value of response.json().get("data", {}) in PoetryFetchThread.run: the keys are
the field names (quotes, author, title, dynasty, translate).  A missing "data"
field yields the empty object []. -/
abbrev Obj := List (String × String)

/-- Python dict.get(key): first binding of the key, if any. -/
def Obj.get? : Obj → String → Option String
  | [], _ => none
  | (k, v) :: rest, key => if k = key then some v else Obj.get? rest key

/-- Python dict.get(key, default). -/
def Obj.getD (o : Obj) (key dflt : String) : String :=
  (Obj.get? o key).getD dflt

/-- Outcome of a single attempt of requests.get + raise_for_status + json
parsing inside PoetryFetchThread.run:
* exn   -- an exception was raised (transport error, non-2xx status, bad JSON);
* ok d  -- a 2xx response parsed, d = response.json().get("data", {}).
The ok payload may be the empty object, which Python treats as falsy. -/
inductive AttemptResult where
  | exn
  | ok (d : Obj)
deriving DecidableEq

/-- Observable events of one PoetryFetchThread.run execution:
* request      -- a requests.get call is issued;
* sleep s      -- time.sleep(s);
* success d    -- fetch_success.emit(d);
* failed       -- fetch_failed.emit(). -/
inductive FetchEvent where
  | request
  | sleep (seconds : Nat)
  | success (d : Obj)
  | failed
deriving DecidableEq

def FetchEvent.isRequest : FetchEvent → Bool
  | FetchEvent.request => true
  | _ => false

def FetchEvent.isSuccess : FetchEvent → Bool
  | FetchEvent.success _ => true
  | _ => false

def FetchEvent.isFailed : FetchEvent → Bool
  | FetchEvent.failed => true
  | _ => false

/-- An attempt is treated as failed by the loop body when it raised an
exception, or when it parsed but the data object is empty (Python:
"if data:" is false for {}). -/
def failsB : AttemptResult → Bool
  | AttemptResult.exn => true
  | AttemptResult.ok d => d.isEmpty

/-- The while-loop of PoetryFetchThread.run.  The environment supplies the
result of attempt number i through the function attempts.  fuel is
max_retries - retry_count, so fuel = 0 is the loop exit, where
fetch_failed.emit() runs.  Each iteration issues a request; a non-empty parsed
payload emits fetch_success and returns at once; otherwise retry_count is
incremented and time.sleep(2) runs before the next test of the guard. -/
def runAux (attempts : Nat → AttemptResult) : Nat → Nat → List FetchEvent
  | _, 0 => [FetchEvent.failed]
  | i, fuel + 1 =>
      match attempts i with
      | AttemptResult.ok d =>
          if d.isEmpty then
            FetchEvent.request :: FetchEvent.sleep 2 :: runAux attempts (i + 1) fuel
          else
            [FetchEvent.request, FetchEvent.success d]
      | AttemptResult.exn =>
          FetchEvent.request :: FetchEvent.sleep 2 :: runAux attempts (i + 1) fuel

/-- self.max_retries in PoetryFetchThread.__init__. -/
def PoetryFetchThread.max_retries : Nat := 3

/-- PoetryFetchThread.run: the whole worker execution, starting at
retry_count = 0. -/
def PoetryFetchThread.run (attempts : Nat → AttemptResult) : List FetchEvent :=
  runAux attempts 0 PoetryFetchThread.max_retries

/-- The trace segment produced by k consecutive failed attempts:
request, sleep 2, request, sleep 2, ... (k times). -/
def failSeg : Nat → List FetchEvent
  | 0 => []
  | k + 1 => FetchEvent.request :: FetchEvent.sleep 2 :: failSeg k

theorem runAux_fail (attempts : Nat → AttemptResult) (i fuel : Nat)
    (h : failsB (attempts i) = true) :
    runAux attempts i (fuel + 1)
      = FetchEvent.request :: FetchEvent.sleep 2 :: runAux attempts (i + 1) fuel := by
  cases ha : attempts i with
  | exn => simp [runAux, ha]
  | ok d =>
      rw [ha] at h
      simp only [failsB] at h
      simp [runAux, ha, h]

theorem runAux_ok (attempts : Nat → AttemptResult) (i fuel : Nat) (d : Obj)
    (h : attempts i = AttemptResult.ok d) (hd : d.isEmpty = false) :
    runAux attempts i (fuel + 1) = [FetchEvent.request, FetchEvent.success d] := by
  simp [runAux, h, hd]

theorem runAux_skip (attempts : Nat → AttemptResult) :
    ∀ (k i fuel : Nat), (∀ j, j < k → failsB (attempts (i + j)) = true) →
      runAux attempts i (fuel + k) = failSeg k ++ runAux attempts (i + k) fuel := by
  intro k
  induction k with
  | zero => intro i fuel _; simp [failSeg]
  | succ k ih =>
      intro i fuel h
      have h0 : failsB (attempts i) = true := by
        have := h 0 (Nat.succ_pos k)
        simpa using this
      have hrest : ∀ j, j < k → failsB (attempts ((i + 1) + j)) = true := by
        intro j hj
        have := h (j + 1) (by omega)
        have e : i + (j + 1) = (i + 1) + j := by omega
        rw [e] at this
        exact this
      have e1 : fuel + (k + 1) = (fuel + k) + 1 := by omega
      rw [e1, runAux_fail attempts i (fuel + k) h0, ih (i + 1) fuel hrest]
      have e2 : (i + 1) + k = i + (k + 1) := by omega
      rw [e2]
      simp [failSeg]

theorem failSeg_filter_success (k : Nat) :
    (failSeg k).filter FetchEvent.isSuccess = [] := by
  induction k with
  | zero => rfl
  | succ n ih => simp [failSeg, FetchEvent.isSuccess, ih]

theorem failSeg_filter_failed (k : Nat) :
    (failSeg k).filter FetchEvent.isFailed = [] := by
  induction k with
  | zero => rfl
  | succ n ih => simp [failSeg, FetchEvent.isFailed, ih]

theorem failSeg_filter_request (k : Nat) :
    ((failSeg k).filter FetchEvent.isRequest).length = k := by
  induction k with
  | zero => rfl
  | succ n ih => simp [failSeg, FetchEvent.isRequest, ih]

/-- Full trace of a run in which every one of the three attempts fails:
three requests, each followed by the fixed 2-second sleep, then the single
fetch_failed emission. -/
theorem run_all_fail (attempts : Nat → AttemptResult)
    (h : ∀ j, j < 3 → failsB (attempts j) = true) :
    PoetryFetchThread.run attempts
      = [FetchEvent.request, FetchEvent.sleep 2, FetchEvent.request, FetchEvent.sleep 2,
         FetchEvent.request, FetchEvent.sleep 2, FetchEvent.failed] := by
  have hskip := runAux_skip attempts 3 0 0 (by intro j hj; simpa using h j hj)
  calc PoetryFetchThread.run attempts
      = runAux attempts 0 (0 + 3) := rfl
    _ = failSeg 3 ++ runAux attempts (0 + 3) 0 := hskip
    _ = _ := rfl

/-- C1: in a run whose first successful attempt is attempt k+1 (zero-based
index k, k < 3, so at most 2 transient failures precede it) and whose payload
d is non-empty, PoetryFetchThread.run emits fetch_success exactly once, with
that first successful payload, issues exactly k+1 requests (none after the
success, which is the last event of the trace), and never emits
fetch_failed. -/
theorem C1_first_success_stops
    (attempts : Nat → AttemptResult) (k : Nat) (d : Obj)
    (hk : k < 3)
    (hfail : ∀ j, j < k → failsB (attempts j) = true)
    (hok : attempts k = AttemptResult.ok d)
    (hne : d.isEmpty = false) :
    PoetryFetchThread.run attempts = failSeg k ++ [FetchEvent.request, FetchEvent.success d] ∧
    (PoetryFetchThread.run attempts).filter FetchEvent.isSuccess = [FetchEvent.success d] ∧
    ((PoetryFetchThread.run attempts).filter FetchEvent.isRequest).length = k + 1 ∧
    (PoetryFetchThread.run attempts).filter FetchEvent.isFailed = [] ∧
    (PoetryFetchThread.run attempts).getLast? = some (FetchEvent.success d) := by
  have hrun : PoetryFetchThread.run attempts
      = failSeg k ++ [FetchEvent.request, FetchEvent.success d] := by
    have h3 : PoetryFetchThread.max_retries = (3 - k) + k := by
      unfold PoetryFetchThread.max_retries
      omega
    have hskip := runAux_skip attempts k 0 (3 - k) (by intro j hj; simpa using hfail j hj)
    have hk3 : 3 - k = (3 - k - 1) + 1 := by omega
    have hstep := runAux_ok attempts k (3 - k - 1) d hok hne
    unfold PoetryFetchThread.run
    rw [h3, hskip]
    simp only [Nat.zero_add]
    rw [hk3, hstep]
  refine ⟨hrun, ?_, ?_, ?_, ?_⟩ <;> rw [hrun]
  · rw [List.filter_append, failSeg_filter_success]
    rfl
  · rw [List.filter_append, List.length_append, failSeg_filter_request]
    rfl
  · rw [List.filter_append, failSeg_filter_failed]
    rfl
  · rw [show failSeg k ++ [FetchEvent.request, FetchEvent.success d]
        = (failSeg k ++ [FetchEvent.request]) ++ [FetchEvent.success d] by simp]
    exact List.getLast?_concat _

/-- Attempt environment for the C1 witness: attempt 0 raises, attempt 1
returns a non-empty payload. -/
def attemptsC1 : Nat → AttemptResult := fun i =>
  if i = 1 then AttemptResult.ok [("quotes", "床前明月光")] else AttemptResult.exn

/-- Witness for C1 at a concrete attempt sequence (one transient failure, then
a non-empty success). -/
theorem C1_first_success_stops_witness :
    PoetryFetchThread.run attemptsC1
      = failSeg 1 ++ [FetchEvent.request, FetchEvent.success [("quotes", "床前明月光")]] ∧
    (PoetryFetchThread.run attemptsC1).filter FetchEvent.isSuccess
      = [FetchEvent.success [("quotes", "床前明月光")]] ∧
    ((PoetryFetchThread.run attemptsC1).filter FetchEvent.isRequest).length = 1 + 1 ∧
    (PoetryFetchThread.run attemptsC1).filter FetchEvent.isFailed = [] ∧
    (PoetryFetchThread.run attemptsC1).getLast?
      = some (FetchEvent.success [("quotes", "床前明月光")]) :=
  C1_first_success_stops attemptsC1 1 [("quotes", "床前明月光")]
    (by decide) (by decide) (by rfl) (by rfl)

/-- C2: in a run where all three attempts fail, PoetryFetchThread.run emits
fetch_failed exactly once, issues exactly 3 requests with the fixed
time.sleep(2) delay between consecutive requests, and never emits
fetch_success. -/
theorem C2_all_failures_terminal
    (attempts : Nat → AttemptResult)
    (h : ∀ j, j < 3 → failsB (attempts j) = true) :
    PoetryFetchThread.run attempts
      = [FetchEvent.request, FetchEvent.sleep 2, FetchEvent.request, FetchEvent.sleep 2,
         FetchEvent.request, FetchEvent.sleep 2, FetchEvent.failed] ∧
    (PoetryFetchThread.run attempts).filter FetchEvent.isFailed = [FetchEvent.failed] ∧
    ((PoetryFetchThread.run attempts).filter FetchEvent.isRequest).length = 3 ∧
    (PoetryFetchThread.run attempts).filter FetchEvent.isSuccess = [] := by
  have hrun := run_all_fail attempts h
  refine ⟨hrun, ?_, ?_, ?_⟩ <;> rw [hrun] <;> rfl

/-- Attempt environment where every attempt raises an exception. -/
def attemptsAllExn : Nat → AttemptResult := fun _ => AttemptResult.exn

/-- Witness for C2 at the concrete all-exceptions attempt sequence. -/
theorem C2_all_failures_terminal_witness :
    PoetryFetchThread.run attemptsAllExn
      = [FetchEvent.request, FetchEvent.sleep 2, FetchEvent.request, FetchEvent.sleep 2,
         FetchEvent.request, FetchEvent.sleep 2, FetchEvent.failed] ∧
    (PoetryFetchThread.run attemptsAllExn).filter FetchEvent.isFailed = [FetchEvent.failed] ∧
    ((PoetryFetchThread.run attemptsAllExn).filter FetchEvent.isRequest).length = 3 ∧
    (PoetryFetchThread.run attemptsAllExn).filter FetchEvent.isSuccess = [] :=
  C2_all_failures_terminal attemptsAllExn (by decide)

/-- C9: an attempt that returns 2xx but whose JSON body has no data field or
an empty data object (both modelled as the empty object, the value of
json().get("data", {})) is treated as a failure: no fetch_success is emitted
for it, it consumes one unit of the retry budget, and the run proceeds to the
next attempt — or, when it is the last attempt, to the terminal fetch_failed
emission. -/
theorem C9_empty_payload_is_failure
    (attempts : Nat → AttemptResult) (i fuel : Nat)
    (h : attempts i = AttemptResult.ok []) :
    runAux attempts i (fuel + 1)
      = FetchEvent.request :: FetchEvent.sleep 2 :: runAux attempts (i + 1) fuel ∧
    (runAux attempts i (fuel + 1)).filter FetchEvent.isSuccess
      = (runAux attempts (i + 1) fuel).filter FetchEvent.isSuccess ∧
    runAux attempts i 1 = [FetchEvent.request, FetchEvent.sleep 2, FetchEvent.failed] := by
  have hf : failsB (attempts i) = true := by rw [h]; rfl
  have hstep := runAux_fail attempts i fuel hf
  refine ⟨hstep, ?_, ?_⟩
  · rw [hstep]
    rfl
  · exact runAux_fail attempts i 0 hf

/-- Attempt environment where every attempt parses a 2xx response whose data
object is empty. -/
def attemptsEmptyData : Nat → AttemptResult := fun _ => AttemptResult.ok []

/-- Witness for C9 at a concrete attempt sequence (attempt 0 yields an empty
data object; one retry unit remains). -/
theorem C9_empty_payload_is_failure_witness :
    runAux attemptsEmptyData 0 (1 + 1)
      = FetchEvent.request :: FetchEvent.sleep 2 :: runAux attemptsEmptyData (0 + 1) 1 ∧
    (runAux attemptsEmptyData 0 (1 + 1)).filter FetchEvent.isSuccess
      = (runAux attemptsEmptyData (0 + 1) 1).filter FetchEvent.isSuccess ∧
    runAux attemptsEmptyData 0 1 = [FetchEvent.request, FetchEvent.sleep 2, FetchEvent.failed] :=
  C9_empty_payload_is_failure attemptsEmptyData 0 1 rfl

/-- C10: every failed attempt — including the third and last — is followed by
the fixed time.sleep(2) before the loop guard is re-tested, so on an
all-failure run the fetch_failed emission comes only after a trailing 2-unit
sleep following the third request, never immediately after it. -/
theorem C10_trailing_delay_before_failed
    (attempts : Nat → AttemptResult)
    (h : ∀ j, j < 3 → failsB (attempts j) = true) :
    PoetryFetchThread.run attempts
      = [FetchEvent.request, FetchEvent.sleep 2, FetchEvent.request, FetchEvent.sleep 2,
         FetchEvent.request] ++ [FetchEvent.sleep 2, FetchEvent.failed] ∧
    (∀ i fuel, failsB (attempts i) = true →
        runAux attempts i (fuel + 1)
          = FetchEvent.request :: FetchEvent.sleep 2 :: runAux attempts (i + 1) fuel) := by
  constructor
  · exact run_all_fail attempts h
  · intro i fuel hf
    exact runAux_fail attempts i fuel hf

/-- Witness for C10 at the concrete all-empty-data attempt sequence. -/
theorem C10_trailing_delay_before_failed_witness :
    PoetryFetchThread.run attemptsEmptyData
      = [FetchEvent.request, FetchEvent.sleep 2, FetchEvent.request, FetchEvent.sleep 2,
         FetchEvent.request] ++ [FetchEvent.sleep 2, FetchEvent.failed] ∧
    runAux attemptsEmptyData 5 (0 + 1)
      = FetchEvent.request :: FetchEvent.sleep 2 :: runAux attemptsEmptyData (5 + 1) 0 :=
  ⟨(C10_trailing_delay_before_failed attemptsEmptyData (by decide)).1,
   (C10_trailing_delay_before_failed attemptsEmptyData (by decide)).2 5 0 (by decide)⟩

/-- The content dictionary passed to _update_ui / update_widget_content: the
five text fields content, author, title, dynasty, translate. -/
structure Content where
  content : String
  author : String
  title : String
  dynasty : String
  translate : String
deriving DecidableEq

/-- Plugin.handle_success: maps the fetched data object to the displayed
content dictionary, substituting a fixed fallback text for each missing field
and prepending the fixed translation marker to the translate field. -/
def Plugin.handle_success (data : Obj) : Content :=
  ⟨Obj.getD data "quotes" "无法获取诗词内容",
   Obj.getD data "author" "未知作者",
   Obj.getD data "title" "未知标题",
   Obj.getD data "dynasty" "未知朝代",
   "翻译：" ++ Obj.getD data "translate" "暂无翻译"⟩

/-- self.default_content in Plugin.__init__: the loading placeholder. -/
def Plugin.default_content : Content :=
  ⟨"正在加载诗词...", "系统", "加载中", "请稍候", "正在从服务器获取数据"⟩

/-- error_content in Plugin.handle_failure: the fixed error placeholder. -/
def Plugin.error_content : Content :=
  ⟨"数据获取失败", "系统", "错误", "5分钟后重试", "请检查网络连接"⟩

/-- Controller actions visible in update_poetry and handle_failure:
* updateUi c             -- self._update_ui(c);
* startFetch             -- a new PoetryFetchThread is created and started;
* scheduleUpdatePoetry t -- QTimer.singleShot(t, self.update_poetry). -/
inductive CtrlEvent where
  | updateUi (c : Content)
  | startFetch
  | scheduleUpdatePoetry (delayMs : Nat)
deriving DecidableEq

def CtrlEvent.isScheduleB : CtrlEvent → Bool
  | CtrlEvent.scheduleUpdatePoetry _ => true
  | _ => false

/-- The retry delay of Plugin.handle_failure: 5 * 60 * 1000 ms. -/
def RETRY_DELAY_MS : Nat := 5 * 60 * 1000

/-- Plugin.update_poetry: shows the loading placeholder, then creates and
starts a new fetch worker. -/
def Plugin.update_poetry_events : List CtrlEvent :=
  [CtrlEvent.updateUi Plugin.default_content, CtrlEvent.startFetch]

/-- Plugin.handle_failure: shows the error placeholder, then schedules a
single QTimer.singleShot(5 * 60 * 1000, self.update_poetry). -/
def Plugin.handle_failure_events : List CtrlEvent :=
  [CtrlEvent.updateUi Plugin.error_content, CtrlEvent.scheduleUpdatePoetry RETRY_DELAY_MS]

/-- C4: handle_success passes quotes, author, title, dynasty through verbatim
into the content, author, title and dynasty fields, prepends the fixed marker
to translate, and substitutes the fixed per-field fallback text for every
missing field (in particular the unknown-author placeholder for a missing
author). -/
theorem C4_handle_success_fields :
    (∀ A B C D E : String,
        Plugin.handle_success
            [("quotes", A), ("author", B), ("title", C), ("dynasty", D), ("translate", E)]
          = ⟨A, B, C, D, "翻译：" ++ E⟩) ∧
    (∀ data : Obj, Obj.get? data "author" = none →
        (Plugin.handle_success data).author = "未知作者") ∧
    (∀ data : Obj, Obj.get? data "quotes" = none →
        (Plugin.handle_success data).content = "无法获取诗词内容") ∧
    (∀ data : Obj, Obj.get? data "title" = none →
        (Plugin.handle_success data).title = "未知标题") ∧
    (∀ data : Obj, Obj.get? data "dynasty" = none →
        (Plugin.handle_success data).dynasty = "未知朝代") ∧
    (∀ data : Obj, Obj.get? data "translate" = none →
        (Plugin.handle_success data).translate = "翻译：" ++ "暂无翻译") := by
  refine ⟨?_, ?_, ?_, ?_, ?_, ?_⟩
  · intro A B C D E
    rfl
  all_goals intro data h
  all_goals simp [Plugin.handle_success, Obj.getD, h]

/-- Witness for C4: a fully populated payload, and a payload missing the
author field. -/
theorem C4_handle_success_fields_witness :
    Plugin.handle_success
        [("quotes", "A"), ("author", "B"), ("title", "C"), ("dynasty", "D"), ("translate", "E")]
      = ⟨"A", "B", "C", "D", "翻译：" ++ "E"⟩ ∧
    (Plugin.handle_success []).author = "未知作者" :=
  ⟨C4_handle_success_fields.1 "A" "B" "C" "D" "E",
   C4_handle_success_fields.2.1 [] rfl⟩

/-- C5: on terminal fetch failure, handle_failure renders the fixed error
placeholder and schedules exactly one automatic re-fetch with the fixed
5-minute delay; the scheduled callback is update_poetry, which shows the
loading placeholder before starting a new fetch worker. -/
theorem C5_failure_placeholder_and_retry :
    Plugin.handle_failure_events
      = [CtrlEvent.updateUi Plugin.error_content,
         CtrlEvent.scheduleUpdatePoetry (5 * 60 * 1000)] ∧
    (Plugin.handle_failure_events.filter CtrlEvent.isScheduleB).length = 1 ∧
    RETRY_DELAY_MS = 300000 ∧
    Plugin.update_poetry_events
      = [CtrlEvent.updateUi Plugin.default_content, CtrlEvent.startFetch] :=
  ⟨rfl, rfl, rfl, rfl⟩

/-- The part of the controller state that Plugin.auto_scroll reads:
whether self.test_widget is truthy, whether the SmoothScrollArea child is
found, whether the vertical scroll bar exists, and the scroll bar's maximum
extent. -/
structure ScrollEnv where
  widgetPresent : Bool
  scrollAreaPresent : Bool
  scrollbarPresent : Bool
  maxValue : Nat
deriving DecidableEq

/-- Side effects Plugin.auto_scroll could perform on the host widgets:
a setValue call on the vertical scroll bar, or a log record (the log calls in
auto_scroll are commented out in the source, so none is ever emitted). -/
inductive ScrollAction where
  | setValue (v : Nat)
  | logRecord (s : String)
deriving DecidableEq

/-- Plugin.auto_scroll: returns the new self.scroll_position together with
the host side effects performed.  When the widget handle, the scroll area or
the scroll bar is absent it returns without touching anything and without
logging; otherwise it wraps the position to 0 once it has reached the maximum
extent, or advances it by one, and pushes the new value to the scroll bar. -/
def Plugin.auto_scroll (env : ScrollEnv) (scroll_position : Nat) :
    Nat × List ScrollAction :=
  if !env.widgetPresent then (scroll_position, [])
  else if !env.scrollAreaPresent then (scroll_position, [])
  else if !env.scrollbarPresent then (scroll_position, [])
  else
    let max_value := env.maxValue
    let p := if scroll_position ≥ max_value then 0 else scroll_position + 1
    (p, [ScrollAction.setValue p])

/-- N ticks of Plugin.auto_scroll from the initial scroll_position = 0, with
the widget, scroll area and scroll bar present throughout and a constant
maximum extent M. -/
def Plugin.auto_scroll_iter (M : Nat) : Nat → Nat
  | 0 => 0
  | n + 1 => (Plugin.auto_scroll ⟨true, true, true, M⟩ (Plugin.auto_scroll_iter M n)).1

/-- C3: with everything attached and a fixed maximum extent M > 0, after N
auto_scroll ticks from 0 the scroll position equals N mod (M + 1): it is
incremented by one per tick and wraps to 0 on reaching the maximum extent. -/
theorem C3_auto_scroll_mod (M N : Nat) (hM : 0 < M) :
    Plugin.auto_scroll_iter M N = N % (M + 1) := by
  induction N with
  | zero => simp [Plugin.auto_scroll_iter]
  | succ n ih =>
      have hunfold : Plugin.auto_scroll_iter M (n + 1)
          = if n % (M + 1) ≥ M then 0 else n % (M + 1) + 1 := by
        show (Plugin.auto_scroll ⟨true, true, true, M⟩ (Plugin.auto_scroll_iter M n)).1 = _
        rw [ih]
        rfl
      have hr : n % (M + 1) < M + 1 := Nat.mod_lt _ (by omega)
      have key : (n + 1) % (M + 1) = (n % (M + 1) + 1) % (M + 1) := by
        conv_lhs => rw [Nat.add_mod]
        rw [Nat.mod_eq_of_lt (show (1 : Nat) < M + 1 by omega)]
      rw [hunfold]
      rcases Nat.lt_or_ge (n % (M + 1)) M with hlt | hge
      · rw [if_neg (by omega), key]
        exact (Nat.mod_eq_of_lt (by omega)).symm
      · have heq : n % (M + 1) = M := by omega
        rw [if_pos (by omega), key, heq, Nat.mod_self]

/-- Witness for C3 at the concrete extent M = 3 and N = 7 ticks. -/
theorem C3_auto_scroll_mod_witness :
    Plugin.auto_scroll_iter 3 7 = 7 % (3 + 1) :=
  C3_auto_scroll_mod 3 7 (by decide)

/-- C6: when no content panel is attached (the widget handle is absent, or
the scroll area or the vertical scroll bar cannot be found), auto_scroll is a
silent no-op: the returned scroll position is the old one and no host side
effect — neither a setValue nor a log record — is performed. -/
theorem C6_auto_scroll_silent_noop (env : ScrollEnv) (p : Nat)
    (h : env.widgetPresent = false ∨ env.scrollAreaPresent = false ∨
         env.scrollbarPresent = false) :
    Plugin.auto_scroll env p = (p, ([] : List ScrollAction)) := by
  rcases h with h | h | h
  · simp [Plugin.auto_scroll, h]
  · cases hw : env.widgetPresent <;> simp [Plugin.auto_scroll, h, hw]
  · cases hw : env.widgetPresent <;> cases ha : env.scrollAreaPresent <;>
      simp [Plugin.auto_scroll, h, hw, ha]

/-- Witness for C6: the widget handle is absent. -/
theorem C6_auto_scroll_silent_noop_witness :
    Plugin.auto_scroll ⟨false, true, true, 5⟩ 7 = (7, ([] : List ScrollAction)) :=
  C6_auto_scroll_silent_noop ⟨false, true, true, 5⟩ 7 (Or.inl rfl)

/-- The host conditions Plugin.update_widget_content checks before touching
the panel: whether method.get_widget(WIDGET_CODE) returns a widget, and
whether that widget has the contentLayout sub-layout. -/
structure WidgetEnv where
  widgetFound : Bool
  layoutFound : Bool
deriving DecidableEq

/-- Log records Plugin.update_widget_content can produce. -/
inductive LogEvent where
  | errorWidgetNotFound
  | errorLayoutNotFound
  | successUpdated
deriving DecidableEq

/-- Plugin.update_widget_content: takes the current children of the
contentLayout and the content to render; returns the resulting children and
the log records.  When the widget or its contentLayout cannot be found it
logs one error and returns at once, leaving the children untouched;
otherwise it clears the old children and adds the freshly built scroll area
rendering the given content (create_scroll_area always yields one). -/
def Plugin.update_widget_content (env : WidgetEnv) (children : List Content)
    (c : Content) : List Content × List LogEvent :=
  if !env.widgetFound then (children, [LogEvent.errorWidgetNotFound])
  else if !env.layoutFound then (children, [LogEvent.errorLayoutNotFound])
  else ([c], [LogEvent.successUpdated])

/-- C7: when the widget or its contentLayout is missing, the update aborts:
exactly one error is logged, and the displayed children are left exactly as
they were — nothing is removed and nothing is added. -/
theorem C7_missing_ui_aborts (env : WidgetEnv) (children : List Content) (c : Content)
    (h : env.widgetFound = false ∨ env.layoutFound = false) :
    (Plugin.update_widget_content env children c).1 = children ∧
    ((Plugin.update_widget_content env children c).2 = [LogEvent.errorWidgetNotFound] ∨
     (Plugin.update_widget_content env children c).2 = [LogEvent.errorLayoutNotFound]) := by
  rcases h with h | h
  · simp [Plugin.update_widget_content, h]
  · cases hw : env.widgetFound <;> simp [Plugin.update_widget_content, h, hw]

/-- Witness for C7: the widget exists but its contentLayout is missing, with
one child currently displayed. -/
theorem C7_missing_ui_aborts_witness :
    (Plugin.update_widget_content ⟨true, false⟩ [Plugin.default_content]
        Plugin.error_content).1 = [Plugin.default_content] ∧
    ((Plugin.update_widget_content ⟨true, false⟩ [Plugin.default_content]
        Plugin.error_content).2 = [LogEvent.errorWidgetNotFound] ∨
     (Plugin.update_widget_content ⟨true, false⟩ [Plugin.default_content]
        Plugin.error_content).2 = [LogEvent.errorLayoutNotFound]) :=
  C7_missing_ui_aborts ⟨true, false⟩ [Plugin.default_content] Plugin.error_content
    (Or.inr rfl)

/-
Timeline model for the retry scheduling (claim C8).

Plugin.handle_failure runs QTimer.singleShot(5 * 60 * 1000, self.update_poetry)
unconditionally: no handle to a previously scheduled singleShot is kept and
none is ever cancelled.  The refresh timer started in Plugin.__init__ calls
update_poetry every 2 * 60 * 60 * 1000 ms independently of any pending retry.

The simulation below follows the deterministic timeline in which every fetch
attempt fails instantly at the transport level, so a worker started at time t
delivers fetch_failed at t + 3 * 2000 ms (three attempts, each followed by
time.sleep(2)).  All quantities are in milliseconds.
-/

/-- Duration of an all-failure PoetryFetchThread run with instantaneous
requests: three time.sleep(2) delays. -/
def FETCH_FAIL_MS : Nat := 3 * 2000

/-- The refresh interval of Plugin.__init__: 2 * 60 * 60 * 1000 ms. -/
def REFRESH_MS : Nat := 2 * 60 * 60 * 1000

/-- The scheduling effect of one Plugin.handle_failure entered at time now:
the pending singleShot list merely grows by the one new fire time; nothing
already pending is cancelled or replaced. -/
def Plugin.handle_failure_pending (now : Nat) (pending : List Nat) : List Nat :=
  pending ++ [now + RETRY_DELAY_MS]

/-- State of the controller timeline: the fire times of the pending
singleShot re-fetches, the next refresh-timer fire time, and how many times
the Failed state has been entered. -/
structure SimState where
  pendingRetries : List Nat
  nextRefresh : Nat
  failCount : Nat
deriving DecidableEq

/-- A call of Plugin.update_poetry at time t whose fetch fails: the Failed
state is entered at t + FETCH_FAIL_MS and handle_failure schedules one new
re-fetch singleShot. -/
def onUpdatePoetry (t : Nat) (s : SimState) : SimState :=
  { s with
    pendingRetries := Plugin.handle_failure_pending (t + FETCH_FAIL_MS) s.pendingRetries,
    failCount := s.failCount + 1 }

/-- Least element of a list of fire times. -/
def minNat? : List Nat → Option Nat
  | [] => none
  | x :: xs =>
      match minNat? xs with
      | none => some x
      | some m => some (Nat.min x m)

/-- One step of the timeline: the earliest due timer fires and triggers
update_poetry (whose fetch fails).  A refresh fire leaves every pending
retry singleShot in place; a retry fire removes only itself. -/
def stepSim (s : SimState) : SimState :=
  match minNat? s.pendingRetries with
  | none => onUpdatePoetry s.nextRefresh { s with nextRefresh := s.nextRefresh + REFRESH_MS }
  | some m =>
      if s.nextRefresh ≤ m then
        onUpdatePoetry s.nextRefresh { s with nextRefresh := s.nextRefresh + REFRESH_MS }
      else
        onUpdatePoetry m { s with pendingRetries := s.pendingRetries.erase m }

/-- The timeline start: Plugin.__init__ calls update_poetry at time 0 and
starts the refresh timer. -/
def simInit : SimState :=
  onUpdatePoetry 0 { pendingRetries := [], nextRefresh := REFRESH_MS, failCount := 0 }

/-- Counterexample to C8 as stated: in the all-failures timeline, after the
24th timer fire (the first refresh-timer fire, at 7200000 ms, which lands
inside the pending window of the retry scheduled by the 24th Failed entry at
7044000 ms), two scheduled automatic re-fetches are pending simultaneously —
the singleShots due at 7344000 ms and at 7506000 ms — so it is not true that
at most one pending scheduled re-fetch exists at a time. -/
theorem C8_two_pending_retries_counterexample :
    2 ≤ ((stepSim^[24]) simInit).pendingRetries.length ∧
    (stepSim^[24]) simInit
      = { pendingRetries := [7344000, 7506000], nextRefresh := 14400000, failCount := 25 } := by
  constructor
  · decide
  · decide

/-- C8 (amended): every entry into the Failed state appends exactly one newly
scheduled re-fetch, due a fixed 5-minute delay later, and cancels none of the
pending ones; consequently at most one re-fetch is pending at a time only
while each Failed entry follows the firing of the previously scheduled retry
(as in the first 23 steps of the all-failures timeline), and once the 2-hour
refresh timer triggers a failing cycle while a retry is still pending, two
scheduled re-fetches are pending simultaneously. -/
theorem C8_single_schedule_per_failure :
    (∀ now pending, (Plugin.handle_failure_pending now pending).length
        = pending.length + 1) ∧
    (∀ now pending, Plugin.handle_failure_pending now pending
        = pending ++ [now + RETRY_DELAY_MS]) ∧
    (∀ k, k < 24 → ((stepSim^[k]) simInit).pendingRetries.length = 1) ∧
    ((stepSim^[24]) simInit).pendingRetries.length = 2 := by
  refine ⟨?_, ?_, ?_, ?_⟩
  · intro now pending
    simp [Plugin.handle_failure_pending]
  · intro now pending
    rfl
  · decide
  · decide

/-- Witness for the amended C8: one concrete handle_failure entry and one
concrete step of the timeline. -/
theorem C8_single_schedule_per_failure_witness :
    (Plugin.handle_failure_pending 100 [7]).length = [(7 : Nat)].length + 1 ∧
    ((stepSim^[5]) simInit).pendingRetries.length = 1 :=
  ⟨C8_single_schedule_per_failure.1 100 [7],
   C8_single_schedule_per_failure.2.2.1 5 (by decide)⟩
